import Mathlib

/-!
Verification of the utrahacks line-follower core.

The definitions below are a shallow embedding of the Arduino sketches:
* `src/line_follower_robot/line_follow_test/line_follow_test.ino` (richest
  variant: confidence classifier, history buffer, obstacle monitor,
  continuous-sweep search, main loop), and the identical classifier and
  fork resolver in `src/sketch_jan31a/sketch_jan31a.ino` together with its
  stepwise `findLine`;
* `src/line_follower_robot/line_follower_robot.ino` (threshold classifier),
  embedded in namespace `Robot`.

C `int` values are modelled as `Int` (no arithmetic here can overflow a
32-bit int given the constant ranges involved); counters as `Nat`.
Hardware reads (`pulseIn`, `digitalRead`, `millis`) are inputs of the
embedded functions; motor/pin writes and `delay` become elements of an
explicit action trace.
-/

namespace UtraHacks

/-- `enum Color { BLACK, RED, GREEN, WHITE, BLUE, UNKNOWN }` — shared by
`line_follow_test.ino` and `sketch_jan31a.ino`; `line_follower_robot.ino`
uses the same constructors under `COLOR_*` names. -/
inductive Color where
  | BLACK
  | RED
  | GREEN
  | WHITE
  | BLUE
  | UNKNOWN
deriving DecidableEq, Repr, Fintype

/-- One calibrated profile: inclusive (min,max) ranges for the three
channels (the `*_R_MIN`/`*_R_MAX`/... constant groups). -/
structure Profile where
  rMin : Int
  rMax : Int
  gMin : Int
  gMax : Int
  bMin : Int
  bMax : Int
deriving DecidableEq, Repr

/-- `WHITE_*` thresholds of `line_follow_test.ino` / `sketch_jan31a.ino`. -/
def whiteProfile : Profile := ⟨12, 18, 14, 20, 12, 18⟩

/-- `BLACK_*` thresholds. -/
def blackProfile : Profile := ⟨110, 135, 122, 148, 98, 120⟩

/-- `RED_*` thresholds. -/
def redProfile : Profile := ⟨12, 32, 55, 125, 40, 92⟩

/-- `GREEN_*` thresholds. -/
def greenProfile : Profile := ⟨55, 100, 34, 50, 48, 75⟩

/-- `BLUE_*` thresholds. -/
def blueProfile : Profile := ⟨95, 132, 65, 90, 35, 48⟩

/-- `bool inRange(int val, int minVal, int maxVal)`. -/
def inRange (val minVal maxVal : Int) : Bool :=
  decide (minVal ≤ val) && decide (val ≤ maxVal)

/-- `int getConfidence(...)`: count of channels of reading `(r,g,b)` inside
profile `p`'s three ranges. -/
def getConfidence (r g b : Int) (p : Profile) : Nat :=
  (if inRange r p.rMin p.rMax then 1 else 0)
    + (if inRange g p.gMin p.gMax then 1 else 0)
    + (if inRange b p.bMin p.bMax then 1 else 0)

/-- One `if (conf > bestConf) { bestConf = conf; bestColor = col; }` update
of `readColor`'s selection scan. -/
def selStep (best : Nat × Color) (conf : Nat) (col : Color) : Nat × Color :=
  if best.1 < conf then (conf, col) else best

/-- The selection scan of `readColor`: best-so-far initialized to
`(1, UNKNOWN)`, profiles visited in order WHITE, BLACK, RED, GREEN, BLUE,
replacement only on strictly greater confidence. -/
def selectBest (cW cK cR cG cB : Nat) : Nat × Color :=
  selStep (selStep (selStep (selStep (selStep (1, Color.UNKNOWN)
    cW Color.WHITE) cK Color.BLACK) cR Color.RED) cG Color.GREEN) cB Color.BLUE

/-- The `if (bestColor == UNKNOWN) { if (confBlack == 2) ... }` tie-break
block at the end of `readColor`. -/
def tieBreak (cW cK cR cG cB : Nat) (best : Color) : Color :=
  if best = Color.UNKNOWN then
    if cK = 2 then Color.BLACK
    else if cW = 2 then Color.WHITE
    else if cR = 2 then Color.RED
    else if cG = 2 then Color.GREEN
    else if cB = 2 then Color.BLUE
    else Color.UNKNOWN
  else best

/-- `readColor`'s decision on the five confidences: selection scan followed
by the tie-break block. -/
def classify (cW cK cR cG cB : Nat) : Color :=
  tieBreak cW cK cR cG cB (selectBest cW cK cR cG cB).2

/-- `Color readColor()` of `line_follow_test.ino` / `sketch_jan31a.ino`
(also `readColorDebug`, whose decision logic is identical), with the three
channel pulse reads passed in as `r g b`. -/
def readColor (r g b : Int) : Color :=
  classify (getConfidence r g b whiteProfile) (getConfidence r g b blackProfile)
    (getConfidence r g b redProfile) (getConfidence r g b greenProfile)
    (getConfidence r g b blueProfile)

/-- `readColor` with the trailing tie-break block removed: the selection
scan's result alone. -/
def readColorNoTie (r g b : Int) : Color :=
  (selectBest (getConfidence r g b whiteProfile) (getConfidence r g b blackProfile)
    (getConfidence r g b redProfile) (getConfidence r g b greenProfile)
    (getConfidence r g b blueProfile)).2

/-- Index of the five calibrated profiles, in the priority order the
selection scan visits them. -/
inductive ProfileIdx where
  | white
  | black
  | red
  | green
  | blue
deriving DecidableEq, Repr, Fintype

/-- The calibrated profile of each index. -/
def profileOf : ProfileIdx → Profile
  | .white => whiteProfile
  | .black => blackProfile
  | .red => redProfile
  | .green => greenProfile
  | .blue => blueProfile

/-- The label each profile classifies to. -/
def labelOf : ProfileIdx → Color
  | .white => Color.WHITE
  | .black => Color.BLACK
  | .red => Color.RED
  | .green => Color.GREEN
  | .blue => Color.BLUE

/-- Confidence of reading `(r,g,b)` against profile `p`. -/
def confOf (r g b : Int) (p : ProfileIdx) : Nat :=
  getConfidence r g b (profileOf p)

/-- The maximum of the five confidences of a reading. -/
def maxConf (cW cK cR cG cB : Nat) : Nat :=
  max cW (max cK (max cR (max cG cB)))

/-- Modelled from the spec's words ("the first profile (in priority order)
attaining the true maximum wins ties at that maximum"): the label of the
first profile, in order WHITE, BLACK, RED, GREEN, BLUE, whose confidence
equals the maximum. Used only to compare against `readColor`. -/
def firstAtMax (cW cK cR cG cB : Nat) : Color :=
  let m := maxConf cW cK cR cG cB
  if cW = m then Color.WHITE
  else if cK = m then Color.BLACK
  else if cR = m then Color.RED
  else if cG = m then Color.GREEN
  else Color.BLUE

lemma getConfidence_le_three (r g b : Int) (p : Profile) :
    getConfidence r g b p ≤ 3 := by
  unfold getConfidence
  split <;> split <;> split <;> omega

/-- Exhaustive check of `classify`'s behaviour over all confidence
quintuples (each confidence is at most 3), first half. -/
lemma classify_cases_sel : ∀ a b c d e : Fin 4,
    (classify a.1 b.1 c.1 d.1 e.1 = (selectBest a.1 b.1 c.1 d.1 e.1).2)
    ∧ (2 ≤ maxConf a.1 b.1 c.1 d.1 e.1 →
        classify a.1 b.1 c.1 d.1 e.1 = firstAtMax a.1 b.1 c.1 d.1 e.1)
    ∧ (2 ≤ a.1 ∧ b.1 ≤ 1 ∧ c.1 ≤ 1 ∧ d.1 ≤ 1 ∧ e.1 ≤ 1 →
        classify a.1 b.1 c.1 d.1 e.1 = Color.WHITE)
    ∧ (a.1 ≤ 1 ∧ 2 ≤ b.1 ∧ c.1 ≤ 1 ∧ d.1 ≤ 1 ∧ e.1 ≤ 1 →
        classify a.1 b.1 c.1 d.1 e.1 = Color.BLACK) := by
  decide

set_option synthInstance.maxSize 1024 in
/-- Exhaustive check of `classify`'s behaviour over all confidence
quintuples, second half. -/
lemma classify_cases_rest : ∀ a b c d e : Fin 4,
    (a.1 ≤ 1 ∧ b.1 ≤ 1 ∧ 2 ≤ c.1 ∧ d.1 ≤ 1 ∧ e.1 ≤ 1 →
        classify a.1 b.1 c.1 d.1 e.1 = Color.RED)
    ∧ (a.1 ≤ 1 ∧ b.1 ≤ 1 ∧ c.1 ≤ 1 ∧ 2 ≤ d.1 ∧ e.1 ≤ 1 →
        classify a.1 b.1 c.1 d.1 e.1 = Color.GREEN)
    ∧ (a.1 ≤ 1 ∧ b.1 ≤ 1 ∧ c.1 ≤ 1 ∧ d.1 ≤ 1 ∧ 2 ≤ e.1 →
        classify a.1 b.1 c.1 d.1 e.1 = Color.BLUE)
    ∧ (a.1 ≤ 1 ∧ b.1 ≤ 1 ∧ c.1 ≤ 1 ∧ d.1 ≤ 1 ∧ e.1 ≤ 1 →
        classify a.1 b.1 c.1 d.1 e.1 = Color.UNKNOWN) := by
  decide

/-- `classify_cases` lifted to arbitrary `Nat` confidences below 4. -/
lemma classify_spec (cW cK cR cG cB : Nat)
    (hW : cW ≤ 3) (hK : cK ≤ 3) (hR : cR ≤ 3) (hG : cG ≤ 3) (hB : cB ≤ 3) :
    (classify cW cK cR cG cB = (selectBest cW cK cR cG cB).2)
    ∧ (2 ≤ maxConf cW cK cR cG cB →
        classify cW cK cR cG cB = firstAtMax cW cK cR cG cB)
    ∧ (2 ≤ cW ∧ cK ≤ 1 ∧ cR ≤ 1 ∧ cG ≤ 1 ∧ cB ≤ 1 →
        classify cW cK cR cG cB = Color.WHITE)
    ∧ (cW ≤ 1 ∧ 2 ≤ cK ∧ cR ≤ 1 ∧ cG ≤ 1 ∧ cB ≤ 1 →
        classify cW cK cR cG cB = Color.BLACK)
    ∧ (cW ≤ 1 ∧ cK ≤ 1 ∧ 2 ≤ cR ∧ cG ≤ 1 ∧ cB ≤ 1 →
        classify cW cK cR cG cB = Color.RED)
    ∧ (cW ≤ 1 ∧ cK ≤ 1 ∧ cR ≤ 1 ∧ 2 ≤ cG ∧ cB ≤ 1 →
        classify cW cK cR cG cB = Color.GREEN)
    ∧ (cW ≤ 1 ∧ cK ≤ 1 ∧ cR ≤ 1 ∧ cG ≤ 1 ∧ 2 ≤ cB →
        classify cW cK cR cG cB = Color.BLUE)
    ∧ (cW ≤ 1 ∧ cK ≤ 1 ∧ cR ≤ 1 ∧ cG ≤ 1 ∧ cB ≤ 1 →
        classify cW cK cR cG cB = Color.UNKNOWN) := by
  have h1 := classify_cases_sel ⟨cW, by omega⟩ ⟨cK, by omega⟩ ⟨cR, by omega⟩
    ⟨cG, by omega⟩ ⟨cB, by omega⟩
  have h2 := classify_cases_rest ⟨cW, by omega⟩ ⟨cK, by omega⟩ ⟨cR, by omega⟩
    ⟨cG, by omega⟩ ⟨cB, by omega⟩
  exact ⟨h1.1, h1.2.1, h1.2.2.1, h1.2.2.2, h2.1, h2.2.1, h2.2.2.1, h2.2.2.2⟩

/-- Abbreviation: `classify_spec` at the confidences of a reading. -/
lemma readColor_spec (r g b : Int) :
    (readColor r g b = readColorNoTie r g b)
    ∧ (2 ≤ maxConf (confOf r g b .white) (confOf r g b .black) (confOf r g b .red)
          (confOf r g b .green) (confOf r g b .blue) →
        readColor r g b = firstAtMax (confOf r g b .white) (confOf r g b .black)
          (confOf r g b .red) (confOf r g b .green) (confOf r g b .blue))
    ∧ (2 ≤ confOf r g b .white ∧ confOf r g b .black ≤ 1 ∧ confOf r g b .red ≤ 1
          ∧ confOf r g b .green ≤ 1 ∧ confOf r g b .blue ≤ 1 →
        readColor r g b = Color.WHITE)
    ∧ (confOf r g b .white ≤ 1 ∧ 2 ≤ confOf r g b .black ∧ confOf r g b .red ≤ 1
          ∧ confOf r g b .green ≤ 1 ∧ confOf r g b .blue ≤ 1 →
        readColor r g b = Color.BLACK)
    ∧ (confOf r g b .white ≤ 1 ∧ confOf r g b .black ≤ 1 ∧ 2 ≤ confOf r g b .red
          ∧ confOf r g b .green ≤ 1 ∧ confOf r g b .blue ≤ 1 →
        readColor r g b = Color.RED)
    ∧ (confOf r g b .white ≤ 1 ∧ confOf r g b .black ≤ 1 ∧ confOf r g b .red ≤ 1
          ∧ 2 ≤ confOf r g b .green ∧ confOf r g b .blue ≤ 1 →
        readColor r g b = Color.GREEN)
    ∧ (confOf r g b .white ≤ 1 ∧ confOf r g b .black ≤ 1 ∧ confOf r g b .red ≤ 1
          ∧ confOf r g b .green ≤ 1 ∧ 2 ≤ confOf r g b .blue →
        readColor r g b = Color.BLUE)
    ∧ (confOf r g b .white ≤ 1 ∧ confOf r g b .black ≤ 1 ∧ confOf r g b .red ≤ 1
          ∧ confOf r g b .green ≤ 1 ∧ confOf r g b .blue ≤ 1 →
        readColor r g b = Color.UNKNOWN) :=
  classify_spec _ _ _ _ _ (getConfidence_le_three r g b _) (getConfidence_le_three r g b _)
    (getConfidence_le_three r g b _) (getConfidence_le_three r g b _)
    (getConfidence_le_three r g b _)

/-- C1: for every reading with at least 2 of its 3 channels inside exactly
one calibrated profile's ranges while every other profile matches fewer
than 2 channels, `readColor` returns that profile's label; and for every
reading matching fewer than 2 channels of every profile, `readColor`
returns `UNKNOWN`. -/
theorem readColor_unique_profile (r g b : Int) :
    (∀ p : ProfileIdx, 2 ≤ confOf r g b p →
      (∀ q : ProfileIdx, q ≠ p → confOf r g b q ≤ 1) →
      readColor r g b = labelOf p)
    ∧ ((∀ p : ProfileIdx, confOf r g b p ≤ 1) →
      readColor r g b = Color.UNKNOWN) := by
  have h := readColor_spec r g b
  refine ⟨fun p hp hq => ?_, fun hall => ?_⟩
  · cases p with
    | white =>
        exact h.2.2.1 ⟨hp, hq .black (by decide), hq .red (by decide),
          hq .green (by decide), hq .blue (by decide)⟩
    | black =>
        exact h.2.2.2.1 ⟨hq .white (by decide), hp, hq .red (by decide),
          hq .green (by decide), hq .blue (by decide)⟩
    | red =>
        exact h.2.2.2.2.1 ⟨hq .white (by decide), hq .black (by decide), hp,
          hq .green (by decide), hq .blue (by decide)⟩
    | green =>
        exact h.2.2.2.2.2.1 ⟨hq .white (by decide), hq .black (by decide),
          hq .red (by decide), hp, hq .blue (by decide)⟩
    | blue =>
        exact h.2.2.2.2.2.2.1 ⟨hq .white (by decide), hq .black (by decide),
          hq .red (by decide), hq .green (by decide), hp⟩
  · exact h.2.2.2.2.2.2.2 ⟨hall .white, hall .black, hall .red, hall .green, hall .blue⟩

/-- Witness for C1: the reading (15,17,14) matches only the WHITE profile
(with confidence 3) and classifies WHITE; the reading (0,0,0) matches fewer
than 2 channels of every profile and classifies UNKNOWN. -/
theorem readColor_unique_profile_witness :
    readColor 15 17 14 = Color.WHITE ∧ readColor 0 0 0 = Color.UNKNOWN :=
  ⟨(readColor_unique_profile 15 17 14).1 .white (by decide) (by decide),
   (readColor_unique_profile 0 0 0).2 (by decide)⟩

/-- C2: `readColor` scans profiles in priority order WHITE, BLACK, RED,
GREEN, BLUE with best-so-far confidence initialized to 1 and replaced only
on strictly greater confidence, so whenever the maximum confidence is at
least 2 the first profile in that order attaining it wins; and the
confidence-exactly-2 tie-break block never alters the returned label:
`readColor` equals `readColorNoTie` (the same code with the block removed)
on every input. -/
theorem readColor_tieBreak_dead (r g b : Int) :
    readColor r g b = readColorNoTie r g b
    ∧ (2 ≤ maxConf (confOf r g b .white) (confOf r g b .black) (confOf r g b .red)
          (confOf r g b .green) (confOf r g b .blue) →
        readColor r g b = firstAtMax (confOf r g b .white) (confOf r g b .black)
          (confOf r g b .red) (confOf r g b .green) (confOf r g b .blue)) :=
  ⟨(readColor_spec r g b).1, (readColor_spec r g b).2.1⟩

/-- Witness for C2: at the reading (15,17,14) the maximum confidence is 3
(attained by WHITE) and `readColor` agrees with the first-at-max rule and
with the tie-break-free code. -/
theorem readColor_tieBreak_dead_witness :
    readColor 15 17 14 = readColorNoTie 15 17 14
    ∧ readColor 15 17 14 = firstAtMax (confOf 15 17 14 .white) (confOf 15 17 14 .black)
        (confOf 15 17 14 .red) (confOf 15 17 14 .green) (confOf 15 17 14 .blue) :=
  ⟨(readColor_tieBreak_dead 15 17 14).1,
   (readColor_tieBreak_dead 15 17 14).2 (by decide)⟩

namespace Robot

/-- `WHITE_R_MAX` of `line_follower_robot.ino`. -/
def WHITE_R_MAX : Int := 25

/-- `WHITE_G_MAX`. -/
def WHITE_G_MAX : Int := 25

/-- `WHITE_B_MAX`. -/
def WHITE_B_MAX : Int := 10

/-- `BLACK_R_MIN`. -/
def BLACK_R_MIN : Int := 100

/-- `BLACK_G_MIN`. -/
def BLACK_G_MIN : Int := 140

/-- `BLACK_B_MIN`. -/
def BLACK_B_MIN : Int := 35

/-- `RED_R_MIN`. -/
def RED_R_MIN : Int := 20

/-- `RED_R_MAX`. -/
def RED_R_MAX : Int := 45

/-- `RED_G_MIN`. -/
def RED_G_MIN : Int := 90

/-- `GREEN_R_MIN`. -/
def GREEN_R_MIN : Int := 65

/-- `GREEN_R_MAX`. -/
def GREEN_R_MAX : Int := 100

/-- `GREEN_G_MIN`. -/
def GREEN_G_MIN : Int := 30

/-- `GREEN_G_MAX`. -/
def GREEN_G_MAX : Int := 55

/-- `BLUE_R_MIN`. -/
def BLUE_R_MIN : Int := 35

/-- `BLUE_R_MAX`. -/
def BLUE_R_MAX : Int := 65

/-- `BLUE_G_MIN`. -/
def BLUE_G_MIN : Int := 30

/-- `BLUE_G_MAX`. -/
def BLUE_G_MAX : Int := 55

/-- `BLUE_B_MAX`. -/
def BLUE_B_MAX : Int := 15

/-- `Color readColor()` of `line_follower_robot.ino` (threshold chain, not
confidence voting); its `COLOR_*` enum constructors are rendered by the
shared `Color` type. -/
def readColor (r g b : Int) : Color :=
  if r < WHITE_R_MAX ∧ g < WHITE_G_MAX ∧ b < WHITE_B_MAX then Color.WHITE
  else if BLACK_R_MIN < r ∧ BLACK_G_MIN < g ∧ BLACK_B_MIN < b then Color.BLACK
  else if RED_R_MIN ≤ r ∧ r ≤ RED_R_MAX ∧ RED_G_MIN ≤ g then Color.RED
  else if GREEN_R_MIN ≤ r ∧ r ≤ GREEN_R_MAX ∧ GREEN_G_MIN ≤ g ∧ g ≤ GREEN_G_MAX then
    Color.GREEN
  else if BLUE_R_MIN ≤ r ∧ r ≤ BLUE_R_MAX ∧ BLUE_G_MIN ≤ g ∧ g ≤ BLUE_G_MAX
      ∧ b ≤ BLUE_B_MAX then Color.BLUE
  else Color.UNKNOWN

end Robot

/-- C7 counterexample: `pulseIn` returns 0 on timeout, so the sentinel
"no signal" reading is (0,0,0); the `readColor` of `line_follower_robot.ino`
(a cited source of the claim) classifies it WHITE, not UNKNOWN — the
sentinel is in-range for that classifier's WHITE test, refuting the claim
as stated. -/
theorem robot_readColor_sentinel_is_white :
    Robot.readColor 0 0 0 = Color.WHITE ∧ Color.WHITE ≠ Color.UNKNOWN := by
  decide

/-- C7 (amended): for the sentinel reading (0,0,0) every profile of the
confidence-based classifier (`line_follow_test.ino` / `sketch_jan31a.ino`)
has confidence 0, and that `readColor` returns UNKNOWN; the threshold
classifier of `line_follower_robot.ino` instead returns WHITE on the
sentinel. -/
theorem readColor_sentinel_unknown :
    (∀ p : ProfileIdx, confOf 0 0 0 p = 0)
    ∧ readColor 0 0 0 = Color.UNKNOWN
    ∧ Robot.readColor 0 0 0 = Color.WHITE := by
  decide

/-- `HISTORY_SIZE = 8`. -/
def HISTORY_SIZE : Nat := 8

/-- `BAD_THRESHOLD = 4`. -/
def BAD_THRESHOLD : Nat := 4

/-- The circular buffer `colorHistory` (always exactly 8 entries) together
with the write cursor `historyIndex`. -/
structure History where
  buf : Fin 8 → Color
  idx : Fin 8

/-- `void addToHistory(Color c)`: write at the cursor, advance modulo 8. -/
def addToHistory (h : History) (c : Color) : History :=
  ⟨Function.update h.buf h.idx c, ⟨(h.idx.1 + 1) % 8, by omega⟩⟩

/-- The buffer slot scanned `i` steps back from the most recent write:
`(historyIndex - 1 - i + HISTORY_SIZE) % HISTORY_SIZE` (computed in `int`;
for `0 ≤ historyIndex ≤ 7` and `0 ≤ i ≤ 7` this equals
`(historyIndex + 7 - i) % 8`, with no truncation in `Nat`). -/
def backIdx (idx : Fin 8) (i : Nat) : Fin 8 :=
  ⟨(idx.1 + 7 - i) % 8, by omega⟩

/-- A "bad" label in the sense of `countRecentBad`: WHITE or UNKNOWN. -/
def isBad (c : Color) : Bool :=
  decide (c = Color.WHITE) || decide (c = Color.UNKNOWN)

/-- `int countRecentBad(int lastN)`: WHITE/UNKNOWN count among the last
`min(lastN, 8)` recorded entries, scanning backward from the most recent
write. -/
def countRecentBad (h : History) (lastN : Nat) : Nat :=
  (List.range (min lastN HISTORY_SIZE)).countP (fun i => isBad (h.buf (backIdx h.idx i)))

/-- `bool shouldSweep()`: `countRecentBad(BAD_THRESHOLD) >= BAD_THRESHOLD`. -/
def shouldSweep (h : History) : Bool :=
  decide (BAD_THRESHOLD ≤ countRecentBad h BAD_THRESHOLD)

/-- The concrete history of C3's first example: most recent writes (scanning
backward) UNKNOWN, UNKNOWN, UNKNOWN, BLACK, cursor at 0. -/
def historyExample1 : History :=
  ⟨fun i => if i.1 = 4 then Color.BLACK else Color.UNKNOWN, ⟨0, by omega⟩⟩

/-- The concrete history of C3's second example: every entry UNKNOWN. -/
def historyExample2 : History :=
  ⟨fun _ => Color.UNKNOWN, ⟨0, by omega⟩⟩

/-- C3: `shouldSweep` is true iff every one of the last 4 recorded entries
(scanning backward from the most recent write) is WHITE or UNKNOWN; in
particular, last four = BLACK, UNKNOWN, UNKNOWN, UNKNOWN gives false, and
last four all UNKNOWN gives true. -/
theorem shouldSweep_iff_last_four_bad :
    (∀ h : History,
      shouldSweep h = true ↔ ∀ i : Fin 4, isBad (h.buf (backIdx h.idx i.1)) = true)
    ∧ shouldSweep historyExample1 = false
    ∧ shouldSweep historyExample2 = true := by
  refine ⟨fun h => ?_, by decide, by decide⟩
  have hrange : min BAD_THRESHOLD HISTORY_SIZE = 4 := by decide
  unfold shouldSweep countRecentBad
  rw [hrange, decide_eq_true_eq]
  have hlen : (List.range 4).length = 4 := by simp
  constructor
  · intro hge i
    have hle : (List.range 4).countP (fun j => isBad (h.buf (backIdx h.idx j)))
        ≤ (List.range 4).length := List.countP_le_length _
    have hcount : (List.range 4).countP (fun j => isBad (h.buf (backIdx h.idx j)))
        = (List.range 4).length := by omega
    have hall := List.countP_eq_length.1 hcount
    exact hall i.1 (List.mem_range.2 i.2)
  · intro hall
    have hcount : (List.range 4).countP (fun j => isBad (h.buf (backIdx h.idx j)))
        = (List.range 4).length :=
      List.countP_eq_length.2 (fun j hj => hall ⟨j, List.mem_range.1 hj⟩)
    rw [hcount, hlen]
    decide

/-- One motor/timing/sensor step of a maneuver, in execution order: the
motor primitives (`stopMotors`, `moveForward`, backward drive, `turnLeft`,
`turnRight`, the PWM-reduced sweep turns, `restoreFullSpeed`), a `delay`,
and a color-sensor sampling stop. -/
inductive Act where
  | stop
  | forward
  | backward
  | left
  | right
  | leftSlow (speed : Nat)
  | rightSlow (speed : Nat)
  | restoreSpeed
  | delayMs (n : Nat)
  | sample
deriving DecidableEq, Repr

/-- `TURN_90_DELAY = 500`. -/
def TURN_90_DELAY : Nat := 500

/-- `void turnLeft90()`: `turnLeft(); delay(TURN_90_DELAY); stopMotors();`. -/
def turnLeft90 : List Act := [Act.left, Act.delayMs TURN_90_DELAY, Act.stop]

/-- `void turnRight90()`. -/
def turnRight90 : List Act := [Act.right, Act.delayMs TURN_90_DELAY, Act.stop]

/-- The side `handleFork` commits to. -/
inductive ForkDir where
  | leftBranch
  | rightBranch
deriving DecidableEq, Repr

/-- The decision chain of `handleFork` (identical in `sketch_jan31a.ino`
and `line_follow_test.ino`): equal labels → RIGHT; RED only on the left →
LEFT; RED only on the right → RIGHT; anything else → RIGHT. -/
def forkChoice (leftColor rightColor : Color) : ForkDir :=
  if leftColor = rightColor then ForkDir.rightBranch
  else if leftColor = Color.RED ∧ rightColor ≠ Color.RED then ForkDir.leftBranch
  else if rightColor = Color.RED ∧ leftColor ≠ Color.RED then ForkDir.rightBranch
  else ForkDir.rightBranch

/-- `void handleFork()` as an action trace, with the two probed labels
(right side is probed first) passed in: stop, probe right, return to
center, probe left, return to center, take the chosen 90° turn, advance
forward 200 ms. -/
def handleFork (rightColor leftColor : Color) : List Act :=
  [Act.stop, Act.delayMs 100]
    ++ turnRight90 ++ [Act.sample]
    ++ turnLeft90
    ++ turnLeft90 ++ [Act.sample]
    ++ turnRight90
    ++ (match forkChoice leftColor rightColor with
        | ForkDir.leftBranch => turnLeft90
        | ForkDir.rightBranch => turnRight90)
    ++ [Act.forward, Act.delayMs 200]

/-- C4: for every pair of probed labels `handleFork` chooses left = right →
RIGHT, RED only on the left → LEFT, RED only on the right → RIGHT, any
other combination → RIGHT, then executes the corresponding 90° turn and
advances forward a fixed 200 ms; with the particular table rows of the
claim. -/
theorem handleFork_decision_table :
    (∀ l r : Color,
      (l = r → forkChoice l r = ForkDir.rightBranch)
      ∧ (l = Color.RED ∧ r ≠ Color.RED → forkChoice l r = ForkDir.leftBranch)
      ∧ (r = Color.RED ∧ l ≠ Color.RED → forkChoice l r = ForkDir.rightBranch)
      ∧ (l ≠ r ∧ l ≠ Color.RED ∧ r ≠ Color.RED → forkChoice l r = ForkDir.rightBranch))
    ∧ (∀ l r : Color,
      handleFork r l =
        [Act.stop, Act.delayMs 100] ++ turnRight90 ++ [Act.sample] ++ turnLeft90
          ++ turnLeft90 ++ [Act.sample] ++ turnRight90
          ++ (match forkChoice l r with
              | ForkDir.leftBranch => turnLeft90
              | ForkDir.rightBranch => turnRight90)
          ++ [Act.forward, Act.delayMs 200])
    ∧ forkChoice Color.RED Color.GREEN = ForkDir.leftBranch
    ∧ forkChoice Color.GREEN Color.RED = ForkDir.rightBranch
    ∧ forkChoice Color.RED Color.RED = ForkDir.rightBranch
    ∧ forkChoice Color.GREEN Color.GREEN = ForkDir.rightBranch
    ∧ forkChoice Color.BLACK Color.WHITE = ForkDir.rightBranch := by
  decide

/-- `OBSTACLE_DIST_CM = 15`. -/
def OBSTACLE_DIST_CM : Int := 15

/-- `IR_ACTIVE_LOW = true`. -/
def IR_ACTIVE_LOW : Bool := true

/-- `long getDistance()`: `pulseIn` duration 0 (timeout, no echo) yields
the sentinel -1, otherwise `duration * 0.034 / 2` — a floating-point
conversion, abstracted here as the supplied `conv` (its value never matters
to the claims below beyond the sentinel case). -/
def getDistance (duration : Nat) (conv : Nat → Int) : Int :=
  if duration = 0 then -1 else conv duration

/-- `bool obstacleFront()`: a negative distance (no reading) means no
obstacle, otherwise compare against `OBSTACLE_DIST_CM`. -/
def obstacleFront (duration : Nat) (conv : Nat → Int) : Bool :=
  let dist := getDistance duration conv
  if dist < 0 then false else decide (dist < OBSTACLE_DIST_CM)

/-- `bool obstacleLeft()` applied to the raw `digitalRead(IR_LEFT)` bit. -/
def obstacleLeft (reading : Bool) : Bool :=
  if IR_ACTIVE_LOW then !reading else reading

/-- `bool obstacleRight()`. -/
def obstacleRight (reading : Bool) : Bool :=
  if IR_ACTIVE_LOW then !reading else reading

/-- `int checkObstacles()`: 0 = clear, 1 = left, 2 = right, 3 = front or
both sides. -/
def checkObstacles (duration : Nat) (conv : Nat → Int) (irL irR : Bool) : Nat :=
  let front := obstacleFront duration conv
  let left := obstacleLeft irL
  let right := obstacleRight irR
  if front then 3
  else if left && right then 3
  else if left then 1
  else if right then 2
  else 0

/-- C8: `checkObstacles` returns FRONT_OR_BOTH (3) when the front sensor is
blocked, else 3 when both sides are blocked, else LEFT (1) when only the
left is, else RIGHT (2) when only the right is, else CLEAR (0); and the
no-echo sentinel (pulse duration 0) is treated as no front obstacle. -/
theorem checkObstacles_cases (duration : Nat) (conv : Nat → Int) (irL irR : Bool) :
    (obstacleFront duration conv = true → checkObstacles duration conv irL irR = 3)
    ∧ (obstacleFront duration conv = false → obstacleLeft irL = true →
        obstacleRight irR = true → checkObstacles duration conv irL irR = 3)
    ∧ (obstacleFront duration conv = false → obstacleLeft irL = true →
        obstacleRight irR = false → checkObstacles duration conv irL irR = 1)
    ∧ (obstacleFront duration conv = false → obstacleLeft irL = false →
        obstacleRight irR = true → checkObstacles duration conv irL irR = 2)
    ∧ (obstacleFront duration conv = false → obstacleLeft irL = false →
        obstacleRight irR = false → checkObstacles duration conv irL irR = 0)
    ∧ (duration = 0 → obstacleFront duration conv = false) := by
  refine ⟨?_, ?_, ?_, ?_, ?_, ?_⟩
  · intro hf; simp [checkObstacles, hf]
  · intro hf h1 h2; simp [checkObstacles, hf, h1, h2]
  · intro hf h1 h2; simp [checkObstacles, hf, h1, h2]
  · intro hf h1 h2; simp [checkObstacles, hf, h1, h2]
  · intro hf h1 h2; simp [checkObstacles, hf, h1, h2]
  · intro hd; subst hd; simp [obstacleFront, getDistance]

/-- Witness for C8: concrete sensor states exercising the front-blocked
case, the clear case, and the no-echo fail-open case. -/
theorem checkObstacles_cases_witness :
    checkObstacles 5 (fun _ => 5) true true = 3
    ∧ checkObstacles 0 (fun _ => 5) true true = 0
    ∧ obstacleFront 0 (fun _ => 5) = false := by
  refine ⟨?_, ?_, ?_⟩
  · exact (checkObstacles_cases 5 (fun _ => 5) true true).1 (by decide)
  · exact (checkObstacles_cases 0 (fun _ => 5) true true).2.2.2.2.1 (by decide)
      (by decide) (by decide)
  · exact (checkObstacles_cases 0 (fun _ => 5) true true).2.2.2.2.2 rfl

/-- The avoidance trace of `handleObstacle` for a nonzero obstacle code:
stop, then veer right (left blocked) / veer left (right blocked) / back up
and turn right (front or both), then stop. -/
def avoidActs (o : Nat) : List Act :=
  [Act.stop]
    ++ (if o = 1 then [Act.right, Act.delayMs 200]
        else if o = 2 then [Act.left, Act.delayMs 200]
        else if o = 3 then
          [Act.backward, Act.delayMs 300, Act.stop, Act.right, Act.delayMs 400]
        else [])
    ++ [Act.stop]

/-- `bool handleObstacle()`: no-op returning false when clear, otherwise
the avoidance maneuver and true. -/
def handleObstacle (duration : Nat) (conv : Nat → Int) (irL irR : Bool) :
    Bool × List Act :=
  let o := checkObstacles duration conv irL irR
  if o = 0 then (false, []) else (true, avoidActs o)

/-- `readColor` applied to one raw reading triple. -/
def classifyReading (t : Int × Int × Int) : Color :=
  readColor t.1 t.2.1 t.2.2

/-- `bool isValidColor(Color c)`: BLACK, RED, GREEN or BLUE. -/
def isValidColor (c : Color) : Bool :=
  decide (c = Color.BLACK) || decide (c = Color.RED)
    || decide (c = Color.GREEN) || decide (c = Color.BLUE)

/-- The `while (millis() - start < durationMs)` loop of `slowSweep90`.
`remaining` is the wall-clock budget still open; each iteration samples one
reading (index `k` of `env`) and, when nothing valid is found, spends
`delay(checkIntervalMs)` of it. `fuel` bounds the iteration count: each
real iteration takes at least one millisecond of wall clock (pulse reads
plus the delay), so `fuel = durationMs` iterations can never be exceeded. -/
def sweepGo (env : Nat → Int × Int × Int) (interval : Nat) :
    Nat → Nat → Nat → Bool × Nat × List Act
  | 0, _, k => (false, k, [])
  | fuel + 1, remaining, k =>
    if remaining = 0 then (false, k, [])
    else if isValidColor (classifyReading (env k)) then
      (true, k + 1, [Act.sample, Act.stop, Act.restoreSpeed])
    else
      ((sweepGo env interval fuel (remaining - interval) (k + 1)).1,
        (sweepGo env interval fuel (remaining - interval) (k + 1)).2.1,
        [Act.sample, Act.delayMs interval]
          ++ (sweepGo env interval fuel (remaining - interval) (k + 1)).2.2)

/-- `bool slowSweep90(bool goLeft, int durationMs, int checkIntervalMs,
int speed)`: start a reduced-PWM in-place rotation, repeatedly sample
while the duration budget is open (stopping at once on a valid color),
stop and restore full speed either way. Returns the flag, the next unread
`env` index, and the trace. -/
def slowSweep90 (goLeft : Bool) (durationMs checkIntervalMs speed : Nat)
    (env : Nat → Int × Int × Int) (k : Nat) : Bool × Nat × List Act :=
  let head := if goLeft then Act.leftSlow speed else Act.rightSlow speed
  let r := sweepGo env checkIntervalMs durationMs durationMs k
  (r.1, r.2.1, head :: (r.2.2 ++ if r.1 then [] else [Act.stop, Act.restoreSpeed]))

/-- `SWEEP_DURATION_MS = 1200`. -/
def SWEEP_DURATION_MS : Nat := 1200

/-- `CHECK_INTERVAL_MS = 10`. -/
def CHECK_INTERVAL_MS : Nat := 10

/-- `SWEEP_SPEED = 80`. -/
def SWEEP_SPEED : Nat := 80

/-- `void findLine()` of `line_follow_test.ino` (continuous-sweep
strategy): stop; sweep left 90°; on failure sweep right 180°; on failure
sweep left again to recenter; finally advance forward (150 ms after a
successful sweep, 200 ms after the fallback). Returns the next unread
`env` index and the trace. -/
def findLineCont (env : Nat → Int × Int × Int) (k : Nat) : Nat × List Act :=
  let s1 := slowSweep90 true SWEEP_DURATION_MS CHECK_INTERVAL_MS SWEEP_SPEED env k
  if s1.1 then
    (s1.2.1, [Act.stop] ++ s1.2.2 ++ [Act.forward, Act.delayMs 150])
  else
    let s2 := slowSweep90 false (SWEEP_DURATION_MS * 2) CHECK_INTERVAL_MS SWEEP_SPEED
      env s1.2.1
    if s2.1 then
      (s2.2.1, [Act.stop] ++ s1.2.2 ++ s2.2.2 ++ [Act.forward, Act.delayMs 150])
    else
      let s3 := slowSweep90 true SWEEP_DURATION_MS CHECK_INTERVAL_MS SWEEP_SPEED
        env s2.2.1
      (s3.2.1, [Act.stop] ++ s1.2.2 ++ s2.2.2 ++ s3.2.2 ++ [Act.forward, Act.delayMs 200])

/-- `HISTORY_INTERVAL = 40`. -/
def HISTORY_INTERVAL : Nat := 40

/-- The mutable navigation state of `line_follow_test.ino`'s loop:
history buffer and cursor, `lastHistoryTime`, `lastColor`,
`searchForwardMs`. -/
structure NavState where
  hist : History
  lastHistoryTime : Nat
  lastColor : Color
  searchForwardMs : Nat

/-- Result of one `loop()` cycle: whether an obstacle preempted the cycle,
which color-dispatch branch ran (`none` when preempted), the action trace,
the updated state and the next unread `env` index. -/
structure CycleOut where
  handled : Bool
  branch : Option Color
  acts : List Act
  st : NavState
  kEnd : Nat

/-- One cycle of `void loop()` of `line_follow_test.ino`. Sensor inputs:
ultrasonic pulse `duration` (with `conv` the abstracted cm conversion),
raw IR bits, the color reading `rgb` of this cycle, the stream `env` of
readings a recovery sweep would consume, and `millis()` as `now` (the
unsigned-wraparound subtraction is modelled as `Nat` subtraction, i.e. for
`now ≥ lastHistoryTime`). After the edge-triggered transition log,
`lastColor` equals the current label on both branches of
`if (current != lastColor)`. -/
def loopCycle (duration : Nat) (conv : Nat → Int) (irL irR : Bool)
    (rgb : Int × Int × Int) (env : Nat → Int × Int × Int) (k : Nat)
    (now : Nat) (st : NavState) : CycleOut :=
  let ho := handleObstacle duration conv irL irR
  if ho.1 then ⟨true, none, ho.2, st, k⟩
  else
    let current := classifyReading rgb
    let recordDue := HISTORY_INTERVAL ≤ now - st.lastHistoryTime
    let hist1 := if recordDue then addToHistory st.hist current else st.hist
    let lt1 := if recordDue then now else st.lastHistoryTime
    let st1 : NavState := ⟨hist1, lt1, current, st.searchForwardMs⟩
    match current with
    | Color.BLACK =>
        ⟨false, some current, [Act.forward, Act.delayMs 50],
          { st1 with searchForwardMs := 150 }, k⟩
    | Color.RED => ⟨false, some current, [Act.forward, Act.delayMs 50], st1, k⟩
    | Color.GREEN => ⟨false, some current, [Act.forward, Act.delayMs 50], st1, k⟩
    | Color.BLUE =>
        ⟨false, some current, [Act.stop, Act.delayMs 1000, Act.delayMs 50], st1, k⟩
    | Color.WHITE =>
        if shouldSweep hist1 then
          let fl := findLineCont env k
          ⟨false, some current, fl.2 ++ [Act.delayMs 50], st1, fl.1⟩
        else ⟨false, some current, [Act.forward, Act.delayMs 50], st1, k⟩
    | Color.UNKNOWN =>
        if shouldSweep hist1 then
          let fl := findLineCont env k
          ⟨false, some current, fl.2 ++ [Act.delayMs 50], st1, fl.1⟩
        else ⟨false, some current, [Act.forward, Act.delayMs 50], st1, k⟩

/-- C5: in every cycle whose obstacle status is nonzero (not CLEAR),
`handleObstacle` reports handled, the cycle runs no color-dispatch branch
and its trace is exactly the obstacle-avoidance actions, with the
navigation state untouched; with status CLEAR, `handleObstacle` reports
not handled and the cycle proceeds to the color dispatch of the current
reading. -/
theorem loop_obstacle_preempts (duration : Nat) (conv : Nat → Int) (irL irR : Bool)
    (rgb : Int × Int × Int) (env : Nat → Int × Int × Int) (k now : Nat) (st : NavState) :
    (checkObstacles duration conv irL irR ≠ 0 →
      (loopCycle duration conv irL irR rgb env k now st).handled = true
      ∧ (loopCycle duration conv irL irR rgb env k now st).branch = none
      ∧ (loopCycle duration conv irL irR rgb env k now st).acts
          = avoidActs (checkObstacles duration conv irL irR)
      ∧ (loopCycle duration conv irL irR rgb env k now st).st = st)
    ∧ (checkObstacles duration conv irL irR = 0 →
      (loopCycle duration conv irL irR rgb env k now st).handled = false
      ∧ (loopCycle duration conv irL irR rgb env k now st).branch
          = some (classifyReading rgb)) := by
  constructor
  · intro h0
    simp [loopCycle, handleObstacle, h0]
  · intro h0
    cases hc : classifyReading rgb <;>
      simp [loopCycle, handleObstacle, h0, hc]
    all_goals split <;> split <;> simp

/-- An all-UNKNOWN starting state for the C5 witness. -/
def navState0 : NavState :=
  ⟨⟨fun _ => Color.UNKNOWN, ⟨0, by omega⟩⟩, 0, Color.UNKNOWN, 150⟩

/-- Witness for C5: with the front ultrasonic reporting 5 cm the cycle is
preempted by the avoidance maneuver; with no echo and both IR bits high
(active-low: clear) the cycle dispatches on the classified color. -/
theorem loop_obstacle_preempts_witness :
    ((loopCycle 5 (fun _ => 5) true true (0, 0, 0) (fun _ => (0, 0, 0)) 0 0
        navState0).handled = true
      ∧ (loopCycle 5 (fun _ => 5) true true (0, 0, 0) (fun _ => (0, 0, 0)) 0 0
          navState0).branch = none
      ∧ (loopCycle 5 (fun _ => 5) true true (0, 0, 0) (fun _ => (0, 0, 0)) 0 0
          navState0).acts = avoidActs (checkObstacles 5 (fun _ => 5) true true)
      ∧ (loopCycle 5 (fun _ => 5) true true (0, 0, 0) (fun _ => (0, 0, 0)) 0 0
          navState0).st = navState0)
    ∧ ((loopCycle 0 (fun _ => 5) true true (0, 0, 0) (fun _ => (0, 0, 0)) 0 0
        navState0).handled = false
      ∧ (loopCycle 0 (fun _ => 5) true true (0, 0, 0) (fun _ => (0, 0, 0)) 0 0
          navState0).branch = some (classifyReading (0, 0, 0))) :=
  ⟨(loop_obstacle_preempts 5 (fun _ => 5) true true (0, 0, 0) (fun _ => (0, 0, 0)) 0 0
      navState0).1 (by decide),
   (loop_obstacle_preempts 0 (fun _ => 5) true true (0, 0, 0) (fun _ => (0, 0, 0)) 0 0
      navState0).2 (by decide)⟩

/-- One pulse of the stepwise search: `turn; delay(80); stopMotors();`
followed by the sampling read. -/
def pulseGroup (turn : Act) : List Act :=
  [turn, Act.delayMs 80, Act.stop, Act.sample]

/-- The recentering of the stepwise `findLine`: five right pulses without
sampling, then stop. -/
def recenterActs : List Act :=
  (List.replicate 5 [Act.right, Act.delayMs 80]).flatten ++ [Act.stop]

/-- One bounded pulse loop of the stepwise `findLine` (`for (i = 0; i < n;
i++) { turn; delay(80); stop; if (readColor() == BLACK) ... return; }`),
sampling reading `k`, `k+1`, ... of `env`. Returns whether BLACK was
found, the next unread index, and the trace. -/
def searchPulses (turn : Act) (env : Nat → Int × Int × Int) :
    Nat → Nat → Bool × Nat × List Act
  | 0, k => (false, k, [])
  | n + 1, k =>
    if classifyReading (env k) = Color.BLACK then (true, k + 1, pulseGroup turn)
    else
      let r := searchPulses turn env n (k + 1)
      (r.1, r.2.1, pulseGroup turn ++ r.2.2)

/-- `void findLine()` of `sketch_jan31a.ino` (stepwise strategy): stop;
up to 5 right pulses, each followed by a sampling stop — on BLACK advance
250 ms and reset the adaptive duration to 150; otherwise up to 10 left
pulses the same way; otherwise recenter with 5 right pulses, advance
forward for the current `searchForwardMs` and grow it by 50 (only below
the 500 cap). Returns the trace and the new `searchForwardMs`. -/
def findLineStep (env : Nat → Int × Int × Int) (searchForwardMs : Nat) :
    List Act × Nat :=
  let p1 := searchPulses Act.right env 5 0
  if p1.1 then ([Act.stop] ++ p1.2.2 ++ [Act.forward, Act.delayMs 250], 150)
  else
    let p2 := searchPulses Act.left env 10 p1.2.1
    if p2.1 then
      ([Act.stop] ++ p1.2.2 ++ p2.2.2 ++ [Act.forward, Act.delayMs 250], 150)
    else
      ([Act.stop] ++ p1.2.2 ++ p2.2.2 ++ recenterActs
          ++ [Act.forward, Act.delayMs searchForwardMs, Act.stop],
        if searchForwardMs < 500 then searchForwardMs + 50 else searchForwardMs)

/-- `int searchForwardMs = 150`: the startup value of the adaptive
search-forward duration. -/
def searchForwardMsStart : Nat := 150

/-- A sensor stream that never reads BLACK (the all-zero sentinel reads as
UNKNOWN), used to iterate failed recoveries. -/
def envNoLine : Nat → Int × Int × Int := fun _ => (0, 0, 0)

/-- The adaptive duration after `n` consecutive failed stepwise recoveries
starting from the startup value. -/
def failIterDur : Nat → Nat
  | 0 => searchForwardMsStart
  | n + 1 => (findLineStep envNoLine (failIterDur n)).2

lemma searchPulses_notFound (turn : Act) (env : Nat → Int × Int × Int) :
    ∀ n k, (∀ i, i < n → classifyReading (env (k + i)) ≠ Color.BLACK) →
      searchPulses turn env n k
        = (false, k + n, (List.replicate n (pulseGroup turn)).flatten) := by
  intro n
  induction n with
  | zero => intro k _; simp [searchPulses]
  | succ n ih =>
      intro k h
      have h0 : classifyReading (env k) ≠ Color.BLACK := by
        have := h 0 (by omega); simpa using this
      have hs : ∀ i, i < n → classifyReading (env (k + 1 + i)) ≠ Color.BLACK := by
        intro i hi
        have := h (i + 1) (by omega)
        rwa [show k + (i + 1) = k + 1 + i by omega] at this
      rw [searchPulses, if_neg h0, ih (k + 1) hs]
      simp [List.replicate_succ]
      omega

lemma searchPulses_found (turn : Act) (env : Nat → Int × Int × Int) :
    ∀ n j k, j < n → classifyReading (env (k + j)) = Color.BLACK →
      (∀ i, i < j → classifyReading (env (k + i)) ≠ Color.BLACK) →
      searchPulses turn env n k
        = (true, k + j + 1, (List.replicate (j + 1) (pulseGroup turn)).flatten) := by
  intro n
  induction n with
  | zero => intro j k hj; omega
  | succ n ih =>
      intro j k hj hb hmin
      cases j with
      | zero =>
          have hb0 : classifyReading (env k) = Color.BLACK := by simpa using hb
          rw [searchPulses, if_pos hb0]
          simp
      | succ j =>
          have h0 : classifyReading (env k) ≠ Color.BLACK := by
            have := hmin 0 (by omega); simpa using this
          have hb1 : classifyReading (env (k + 1 + j)) = Color.BLACK := by
            rwa [show k + (j + 1) = k + 1 + j by omega] at hb
          have hmin1 : ∀ i, i < j → classifyReading (env (k + 1 + i)) ≠ Color.BLACK := by
            intro i hi
            have := hmin (i + 1) (by omega)
            rwa [show k + (i + 1) = k + 1 + i by omega] at this
          rw [searchPulses, if_neg h0, ih j (k + 1) (by omega) hb1 hmin1]
          simp [List.replicate_succ]
          omega

lemma findLineStep_noBlack (env : Nat → Int × Int × Int) (d : Nat)
    (h : ∀ i, i < 15 → classifyReading (env i) ≠ Color.BLACK) :
    findLineStep env d =
      ([Act.stop] ++ (List.replicate 5 (pulseGroup Act.right)).flatten
          ++ (List.replicate 10 (pulseGroup Act.left)).flatten ++ recenterActs
          ++ [Act.forward, Act.delayMs d, Act.stop],
        if d < 500 then d + 50 else d) := by
  have h1 := searchPulses_notFound Act.right env 5 0
    (fun i hi => by have := h i (by omega); simpa using this)
  have h2 := searchPulses_notFound Act.left env 10 5
    (fun i hi => h (5 + i) (by omega))
  simp [findLineStep, h1, h2]

lemma findLineStep_foundRight (env : Nat → Int × Int × Int) (d j : Nat)
    (hj : j < 5) (hb : classifyReading (env j) = Color.BLACK)
    (hmin : ∀ i, i < j → classifyReading (env i) ≠ Color.BLACK) :
    findLineStep env d =
      ([Act.stop] ++ (List.replicate (j + 1) (pulseGroup Act.right)).flatten
          ++ [Act.forward, Act.delayMs 250], 150) := by
  have h1 := searchPulses_found Act.right env 5 j 0 hj (by simpa using hb)
    (fun i hi => by have := hmin i hi; simpa using this)
  simp [findLineStep, h1]

lemma findLineStep_foundLeft (env : Nat → Int × Int × Int) (d j : Nat)
    (hj : j < 10)
    (hnR : ∀ i, i < 5 → classifyReading (env i) ≠ Color.BLACK)
    (hb : classifyReading (env (5 + j)) = Color.BLACK)
    (hmin : ∀ i, i < j → classifyReading (env (5 + i)) ≠ Color.BLACK) :
    findLineStep env d =
      ([Act.stop] ++ (List.replicate 5 (pulseGroup Act.right)).flatten
          ++ (List.replicate (j + 1) (pulseGroup Act.left)).flatten
          ++ [Act.forward, Act.delayMs 250], 150) := by
  have h1 := searchPulses_notFound Act.right env 5 0
    (fun i hi => by have := hnR i hi; simpa using this)
  have h2 := searchPulses_found Act.left env 10 j 5 hj hb hmin
  simp [findLineStep, h1, h2]

/-- The milliseconds a single trace element spends in `delay`. -/
def delayOf : Act → Nat
  | Act.delayMs n => n
  | _ => 0

/-- Total `delay` milliseconds of a trace: its wall-clock cost besides
sensor-read time. -/
def delaySum (l : List Act) : Nat :=
  (l.map delayOf).sum

lemma delaySum_nil : delaySum [] = 0 := rfl

lemma delaySum_cons (a : Act) (l : List Act) :
    delaySum (a :: l) = delayOf a + delaySum l := by
  simp [delaySum]

lemma delaySum_append (l1 l2 : List Act) :
    delaySum (l1 ++ l2) = delaySum l1 + delaySum l2 := by
  simp [delaySum]

lemma sweepGo_zero_budget (env : Nat → Int × Int × Int) (interval : Nat) :
    ∀ fuel k, sweepGo env interval fuel 0 k = (false, k, []) := by
  intro fuel k
  cases fuel <;> simp [sweepGo]

lemma sweepGo_bounds (env : Nat → Int × Int × Int) (interval : Nat) :
    ∀ fuel remaining k,
      (sweepGo env interval fuel remaining k).2.1 ≤ k + fuel
      ∧ delaySum (sweepGo env interval fuel remaining k).2.2 ≤ remaining + interval := by
  intro fuel
  induction fuel with
  | zero => intro remaining k; simp [sweepGo, delaySum]
  | succ fuel ih =>
      intro remaining k
      rw [sweepGo]
      by_cases h0 : remaining = 0
      · simp [h0, delaySum]
      · rw [if_neg h0]
        by_cases hv : isValidColor (classifyReading (env k)) = true
        · rw [if_pos hv]
          simp [delaySum, delayOf]
        · rw [if_neg hv]
          have hk := (ih (remaining - interval) (k + 1)).1
          have hd := (ih (remaining - interval) (k + 1)).2
          constructor
          · show (sweepGo env interval fuel (remaining - interval) (k + 1)).2.1
                ≤ k + (fuel + 1)
            omega
          · show delaySum ([Act.sample, Act.delayMs interval]
                ++ (sweepGo env interval fuel (remaining - interval) (k + 1)).2.2)
                ≤ remaining + interval
            rw [delaySum_append]
            have hpre : delaySum [Act.sample, Act.delayMs interval] = interval := by
              simp [delaySum, delayOf]
            by_cases hi : interval ≤ remaining
            · omega
            · have hz : remaining - interval = 0 := by omega
              rw [hz, sweepGo_zero_budget] at hd ⊢
              rw [show delaySum (false, k + 1, ([] : List Act)).2.2 = 0 from rfl]
              omega

lemma slowSweep90_bounds (goLeft : Bool) (durationMs checkIntervalMs speed : Nat)
    (env : Nat → Int × Int × Int) (k : Nat) :
    (slowSweep90 goLeft durationMs checkIntervalMs speed env k).2.1 ≤ k + durationMs
    ∧ delaySum (slowSweep90 goLeft durationMs checkIntervalMs speed env k).2.2
        ≤ durationMs + checkIntervalMs := by
  have h := sweepGo_bounds env checkIntervalMs durationMs durationMs k
  unfold slowSweep90
  refine ⟨h.1, ?_⟩
  rw [delaySum_cons, delaySum_append]
  have hhead : delayOf (if goLeft then Act.leftSlow speed else Act.rightSlow speed) = 0 := by
    cases goLeft <;> simp [delayOf]
  have htail : delaySum (if (sweepGo env checkIntervalMs durationMs durationMs k).1 then
      ([] : List Act) else [Act.stop, Act.restoreSpeed]) = 0 := by
    split <;> simp [delaySum, delayOf]
  omega

lemma findLineCont_bounds (env : Nat → Int × Int × Int) (k : Nat) :
    (findLineCont env k).1 ≤ k + 4800 ∧ delaySum (findLineCont env k).2 ≤ 5030 := by
  obtain ⟨h1k, h1d⟩ := slowSweep90_bounds true SWEEP_DURATION_MS CHECK_INTERVAL_MS
    SWEEP_SPEED env k
  obtain ⟨h2k, h2d⟩ := slowSweep90_bounds false (SWEEP_DURATION_MS * 2) CHECK_INTERVAL_MS
    SWEEP_SPEED env (slowSweep90 true SWEEP_DURATION_MS CHECK_INTERVAL_MS SWEEP_SPEED env k).2.1
  obtain ⟨h3k, h3d⟩ := slowSweep90_bounds true SWEEP_DURATION_MS CHECK_INTERVAL_MS
    SWEEP_SPEED env
    (slowSweep90 false (SWEEP_DURATION_MS * 2) CHECK_INTERVAL_MS SWEEP_SPEED env
      (slowSweep90 true SWEEP_DURATION_MS CHECK_INTERVAL_MS SWEEP_SPEED env k).2.1).2.1
  simp only [findLineCont]
  split
  · constructor
    · simp [SWEEP_DURATION_MS] at h1k ⊢
      omega
    · simp [delaySum_append, delaySum, delayOf, SWEEP_DURATION_MS, CHECK_INTERVAL_MS]
        at h1d ⊢
      omega
  · split
    · constructor
      · simp [SWEEP_DURATION_MS] at h1k h2k ⊢
        omega
      · simp [delaySum_append, delaySum, delayOf, SWEEP_DURATION_MS, CHECK_INTERVAL_MS]
          at h1d h2d ⊢
        omega
    · constructor
      · simp [SWEEP_DURATION_MS] at h1k h2k h3k ⊢
        omega
      · simp [delaySum_append, delaySum, delayOf, SWEEP_DURATION_MS, CHECK_INTERVAL_MS]
          at h1d h2d h3d ⊢
        omega

lemma searchPulses_bounds (turn : Act) (env : Nat → Int × Int × Int)
    (hturn : delayOf turn = 0) :
    ∀ n k, (searchPulses turn env n k).2.2.length ≤ 4 * n
      ∧ delaySum (searchPulses turn env n k).2.2 ≤ 80 * n := by
  intro n
  induction n with
  | zero => intro k; simp [searchPulses, delaySum]
  | succ n ih =>
      intro k
      have hgroup : delaySum (pulseGroup turn) = 80 := by
        simp [pulseGroup, delaySum, hturn]
        decide
      have hglen : (pulseGroup turn).length = 4 := by simp [pulseGroup]
      rw [searchPulses]
      by_cases hb : classifyReading (env k) = Color.BLACK
      · rw [if_pos hb]
        simp only [hgroup, hglen]
        omega
      · rw [if_neg hb]
        have h := ih (k + 1)
        simp only [List.length_append, delaySum_append, hgroup, hglen]
        omega

lemma recenterActs_facts :
    recenterActs.length = 11 ∧ delaySum recenterActs = 400 := by
  constructor <;> rfl

lemma findLineStep_bounds (env : Nat → Int × Int × Int) (d : Nat) :
    (findLineStep env d).1.length ≤ 80
    ∧ delaySum (findLineStep env d).1 ≤ 1850 + d := by
  obtain ⟨h1l, h1d⟩ := searchPulses_bounds Act.right env (by simp [delayOf]) 5 0
  obtain ⟨h2l, h2d⟩ := searchPulses_bounds Act.left env (by simp [delayOf])
    10 (searchPulses Act.right env 5 0).2.1
  obtain ⟨hrl, hrd⟩ := recenterActs_facts
  have hstop : delayOf Act.stop = 0 := rfl
  have h250 : delaySum [Act.forward, Act.delayMs 250] = 250 := rfl
  have hlast : delaySum [Act.forward, Act.delayMs d, Act.stop] = d := by
    simp [delaySum, delayOf]
  have hlen250 : ([Act.forward, Act.delayMs 250] : List Act).length = 2 := rfl
  have hlenlast : ([Act.forward, Act.delayMs d, Act.stop] : List Act).length = 3 := rfl
  simp only [findLineStep]
  split
  · constructor
    · simp only [List.length_cons, List.length_append, List.length_nil, hlen250]
      omega
    · simp only [delaySum_cons, delaySum_append, delaySum_nil, hstop, h250]
      omega
  · split
    · constructor
      · simp only [List.length_cons, List.length_append, List.length_nil, hlen250]
        omega
      · simp only [delaySum_cons, delaySum_append, delaySum_nil, hstop, h250]
        omega
    · constructor
      · simp only [List.length_cons, List.length_append, List.length_nil, hlenlast, hrl]
        omega
      · simp only [delaySum_cons, delaySum_append, delaySum_nil, hstop, hlast, hrd]
        omega

/-- C9: every search/recovery maneuver is bounded and terminating. The
continuous sweep samples at most `durationMs` readings (each iteration
consumes at least a millisecond of the wall-clock budget); the full
continuous `findLine` consumes at most 4800 readings and at most 5030 ms of
`delay` time; the stepwise `findLine` emits at most 80 actions and at most
`1850 + d` ms of `delay` time for adaptive duration `d`. All three are
total functions: they return control on every input. -/
theorem search_recovery_bounded :
    (∀ (goLeft : Bool) (durationMs checkIntervalMs speed : Nat)
        (env : Nat → Int × Int × Int) (k : Nat),
      (slowSweep90 goLeft durationMs checkIntervalMs speed env k).2.1 ≤ k + durationMs)
    ∧ (∀ (env : Nat → Int × Int × Int) (k : Nat),
      (findLineCont env k).1 ≤ k + 4800 ∧ delaySum (findLineCont env k).2 ≤ 5030)
    ∧ (∀ (env : Nat → Int × Int × Int) (d : Nat),
      (findLineStep env d).1.length ≤ 80
      ∧ delaySum (findLineStep env d).1 ≤ 1850 + d) :=
  ⟨fun goLeft durationMs checkIntervalMs speed env k =>
      (slowSweep90_bounds goLeft durationMs checkIntervalMs speed env k).1,
   fun env k => findLineCont_bounds env k,
   fun env d => findLineStep_bounds env d⟩

/-- C10 (amended): the stepwise `findLine` pulses right up to 5 times,
sampling after each pulse, and on BLACK at the `j`-th sample returns after
`j+1` pulse groups, a 250 ms forward advance, and an adaptive-duration
reset to 150; failing that it pulses left up to 10 times the same way; and
if BLACK is never seen in all 15 samples it recenters with 5 right pulses
(the rightward phase's count, half the leftward count — not the leftward
count as the claim stated), advances forward for the current adaptive
duration `d`, and grows the duration by its 50 ms step (below the 500
cap). -/
theorem findLineStep_behaviour :
    (∀ (env : Nat → Int × Int × Int) (d j : Nat), j < 5 →
      classifyReading (env j) = Color.BLACK →
      (∀ i, i < j → classifyReading (env i) ≠ Color.BLACK) →
      findLineStep env d =
        ([Act.stop] ++ (List.replicate (j + 1) (pulseGroup Act.right)).flatten
            ++ [Act.forward, Act.delayMs 250], 150))
    ∧ (∀ (env : Nat → Int × Int × Int) (d j : Nat), j < 10 →
      (∀ i, i < 5 → classifyReading (env i) ≠ Color.BLACK) →
      classifyReading (env (5 + j)) = Color.BLACK →
      (∀ i, i < j → classifyReading (env (5 + i)) ≠ Color.BLACK) →
      findLineStep env d =
        ([Act.stop] ++ (List.replicate 5 (pulseGroup Act.right)).flatten
            ++ (List.replicate (j + 1) (pulseGroup Act.left)).flatten
            ++ [Act.forward, Act.delayMs 250], 150))
    ∧ (∀ (env : Nat → Int × Int × Int) (d : Nat),
      (∀ i, i < 15 → classifyReading (env i) ≠ Color.BLACK) →
      findLineStep env d =
        ([Act.stop] ++ (List.replicate 5 (pulseGroup Act.right)).flatten
            ++ (List.replicate 10 (pulseGroup Act.left)).flatten ++ recenterActs
            ++ [Act.forward, Act.delayMs d, Act.stop],
          if d < 500 then d + 50 else d)) :=
  ⟨fun env d j hj hb hmin => findLineStep_foundRight env d j hj hb hmin,
   fun env d j hj hnR hb hmin => findLineStep_foundLeft env d j hj hnR hb hmin,
   fun env d h => findLineStep_noBlack env d h⟩

/-- A sensor stream that reads BLACK immediately (a reading inside all
three BLACK ranges). -/
def envBlackAtOnce : Nat → Int × Int × Int := fun _ => (120, 130, 110)

/-- C10 counterexample: on the stream that never reads BLACK, with the
startup duration 150, the stepwise `findLine` does NOT recenter rightward
by the pulse count used going left (10): its recenter loop runs only 5
right pulses (`for (int i = 0; i < 5; i++)`), so the claimed trace with a
10-pulse recenter differs from the actual one. -/
theorem findLineStep_recenter_not_ten :
    findLineStep envNoLine 150 ≠
      ([Act.stop] ++ (List.replicate 5 (pulseGroup Act.right)).flatten
          ++ (List.replicate 10 (pulseGroup Act.left)).flatten
          ++ ((List.replicate 10 [Act.right, Act.delayMs 80]).flatten ++ [Act.stop])
          ++ [Act.forward, Act.delayMs 150, Act.stop],
        200) := by
  decide

/-- Witness for C10: on a stream that reads BLACK at the very first sample
the maneuver returns after one right pulse with the duration reset to 150;
on a stream that never reads BLACK it runs the full sweep and grows the
duration from 150 to 200. -/
theorem findLineStep_behaviour_witness :
    findLineStep envBlackAtOnce 150 =
      ([Act.stop] ++ (List.replicate 1 (pulseGroup Act.right)).flatten
          ++ [Act.forward, Act.delayMs 250], 150)
    ∧ findLineStep envNoLine 150 =
      ([Act.stop] ++ (List.replicate 5 (pulseGroup Act.right)).flatten
          ++ (List.replicate 10 (pulseGroup Act.left)).flatten ++ recenterActs
          ++ [Act.forward, Act.delayMs 150, Act.stop],
        if 150 < 500 then 150 + 50 else 150) :=
  ⟨findLineStep_behaviour.1 envBlackAtOnce 150 0 (by omega) (by decide)
      (fun i hi => absurd hi (Nat.not_lt_zero i)),
   findLineStep_behaviour.2.2 envNoLine 150
     (fun _ _ => show classifyReading (0, 0, 0) ≠ Color.BLACK by decide)⟩

lemma envNoLine_noBlack : ∀ i, i < 15 → classifyReading (envNoLine i) ≠ Color.BLACK :=
  fun _ _ => show classifyReading (0, 0, 0) ≠ Color.BLACK by decide

lemma failIterDur_succ (n : Nat) :
    failIterDur (n + 1) =
      if failIterDur n < 500 then failIterDur n + 50 else failIterDur n := by
  have h := congrArg Prod.snd (findLineStep_noBlack envNoLine (failIterDur n)
    envNoLine_noBlack)
  simpa [failIterDur] using h

lemma failIterDur_bounded : ∀ n, failIterDur n ≤ 500 ∧ failIterDur n % 50 = 0 := by
  intro n
  induction n with
  | zero => constructor <;> decide
  | succ n ih =>
      rw [failIterDur_succ]
      rcases ih with ⟨h1, h2⟩
      split <;> constructor <;> omega

lemma findLineStep_found_reset (env : Nat → Int × Int × Int) (d : Nat)
    (h : ∃ i, i < 15 ∧ classifyReading (env i) = Color.BLACK) :
    (findLineStep env d).2 = 150 := by
  classical
  have hP : ∃ i, i < 15 ∧ classifyReading (env i) = Color.BLACK := h
  set i0 := Nat.find hP with hi0def
  have hspec := Nat.find_spec hP
  have hmin : ∀ i, i < i0 → ¬(i < 15 ∧ classifyReading (env i) = Color.BLACK) :=
    fun i hi => Nat.find_min hP hi
  have hnb : ∀ i, i < i0 → classifyReading (env i) ≠ Color.BLACK := by
    intro i hi
    have hi15 : i < 15 := by omega
    intro hb
    exact hmin i hi ⟨hi15, hb⟩
  by_cases hsmall : i0 < 5
  · have := congrArg Prod.snd (findLineStep_foundRight env d i0 hsmall hspec.2 hnb)
    simpa using this
  · have h5 : 5 ≤ i0 := by omega
    have hj : i0 - 5 < 10 := by omega
    have hb : classifyReading (env (5 + (i0 - 5))) = Color.BLACK := by
      rw [show 5 + (i0 - 5) = i0 by omega]
      exact hspec.2
    have hnR : ∀ i, i < 5 → classifyReading (env i) ≠ Color.BLACK :=
      fun i hi => hnb i (by omega)
    have hminL : ∀ i, i < i0 - 5 → classifyReading (env (5 + i)) ≠ Color.BLACK :=
      fun i hi => hnb (5 + i) (by omega)
    have := congrArg Prod.snd (findLineStep_foundLeft env d (i0 - 5) hj hnR hb hminL)
    simpa using this

/-- The effect of one `loop()` dispatch of `sketch_jan31a.ino` on
`searchForwardMs`: BLACK resets it to 150; WHITE/UNKNOWN with sustained
loss runs `findLine` (which updates it); every other label leaves it
unchanged. -/
def sketchLoopDur (current : Color) (sweep : Bool) (env : Nat → Int × Int × Int)
    (d : Nat) : Nat :=
  match current with
  | Color.BLACK => 150
  | Color.WHITE => if sweep then (findLineStep env d).2 else d
  | Color.UNKNOWN => if sweep then (findLineStep env d).2 else d
  | _ => d

/-- C6: the adaptive search-forward duration starts at 150; a recovery that
never sees BLACK grows it by exactly 50 below the 500 cap (200 after one
consecutive failure, 350 after four) and never shrinks it; iterated
failures never push it beyond 500; and it resets to 150 exactly on
reacquiring BLACK — both when a recovery samples BLACK and when the loop's
BLACK branch runs. -/
theorem adaptive_duration_dynamics :
    searchForwardMsStart = 150
    ∧ (∀ (env : Nat → Int × Int × Int) (d : Nat),
        (∀ i, i < 15 → classifyReading (env i) ≠ Color.BLACK) →
        (findLineStep env d).2 = if d < 500 then d + 50 else d)
    ∧ failIterDur 1 = 200
    ∧ failIterDur 4 = 350
    ∧ (∀ (env : Nat → Int × Int × Int) (d : Nat),
        (∀ i, i < 15 → classifyReading (env i) ≠ Color.BLACK) →
        d ≤ (findLineStep env d).2)
    ∧ (∀ n, failIterDur n ≤ 500)
    ∧ (∀ (env : Nat → Int × Int × Int) (d : Nat),
        (∃ i, i < 15 ∧ classifyReading (env i) = Color.BLACK) →
        (findLineStep env d).2 = 150)
    ∧ (∀ (sweep : Bool) (env : Nat → Int × Int × Int) (d : Nat),
        sketchLoopDur Color.BLACK sweep env d = 150) := by
  refine ⟨rfl, ?_, ?_, ?_, ?_, fun n => (failIterDur_bounded n).1,
    fun env d h => findLineStep_found_reset env d h, fun _ _ _ => rfl⟩
  · intro env d h
    have := congrArg Prod.snd (findLineStep_noBlack env d h)
    simpa using this
  · decide
  · decide
  · intro env d h
    have := congrArg Prod.snd (findLineStep_noBlack env d h)
    simp only at this
    rw [this]
    split <;> omega

/-- Witness for C6: a failed recovery at the startup duration yields 200;
a failed recovery never shrinks the duration; a recovery that samples
BLACK at once resets to 150. -/
theorem adaptive_duration_dynamics_witness :
    (findLineStep envNoLine 150).2 = (if 150 < 500 then 150 + 50 else 150)
    ∧ 150 ≤ (findLineStep envNoLine 150).2
    ∧ (findLineStep envBlackAtOnce 150).2 = 150 :=
  ⟨adaptive_duration_dynamics.2.1 envNoLine 150 envNoLine_noBlack,
   adaptive_duration_dynamics.2.2.2.2.1 envNoLine 150 envNoLine_noBlack,
   adaptive_duration_dynamics.2.2.2.2.2.2.1 envBlackAtOnce 150
     ⟨0, by omega, by decide⟩⟩

end UtraHacks
